import Mathlib

/-!
Verification development for a layered CRUD backend (Python, Supabase).

The store is modelled as a list of rows; a row is an association list from
column names to scalar values (Python dict with insertion order).  The
supabase query builder is modelled as an accumulated boolean predicate on
rows; `execute` with an inclusive `.range(lo, hi)` call filters the table
and slices rows `lo..hi`.  Timestamps produced by `datetime.utcnow()` are
passed in as explicit string parameters.  The `result.data` list returned
by the store for an insert is likewise an explicit parameter where the
code's behaviour on an empty insert response is at issue.
-/

/-- A scalar column value (JSON scalar as used by the repository code). -/
inductive Value where
  | str (s : String)
  | int (n : Int)
  | null
deriving DecidableEq, Repr, BEq

/-- A row: a Python dict from column names to scalar values, in insertion
order, with unique keys. -/
abbrev Row := List (String × Value)

/-- Look a field up in a row (dict access `row.get(k)` / `row[k]`). -/
def getField : Row → String → Option Value
  | [], _ => none
  | (k1, v) :: rest, k => if k1 == k then some v else getField rest k

/-- Python dict assignment `d[k] = v`: replace the value at an existing key
in place, otherwise append the new entry at the end. -/
def setField : Row → String → Value → Row
  | [], k, v => [(k, v)]
  | (k1, v1) :: rest, k, v =>
      if k1 == k then (k, v) :: rest else (k1, v1) :: setField rest k v

/-- Apply every (key, value) assignment of `data` to row `r`, in order
(the effect of a SQL UPDATE with the given column assignments). -/
def applyUpdates (r : Row) (data : Row) : Row :=
  data.foldl (fun acc kv => setField acc kv.1 kv.2) r

/-- SQL LIKE matching: `%` matches any sequence, `_` any single character,
anything else matches itself. -/
def likeMatch : List Char → List Char → Bool
  | [], [] => true
  | [], _ :: _ => false
  | p :: ps, s =>
      if p == '%' then
        likeMatch ps s ||
          (match s with
           | [] => false
           | _ :: t => likeMatch (p :: ps) t)
      else
        match s with
        | [] => false
        | c :: t => (p == '_' || p == c) && likeMatch ps t
termination_by p s => (s.length, p.length)

/-- Column value strictly greater than the operand (store comparison). -/
def valGt : Value → Value → Bool
  | .int a, .int b => b < a
  | .str a, .str b => b < a
  | _, _ => false

/-- Column value greater than or equal to the operand. -/
def valGte : Value → Value → Bool
  | .int a, .int b => b ≤ a
  | .str a, .str b => b ≤ a || a == b
  | _, _ => false

/-- Column value strictly less than the operand. -/
def valLt : Value → Value → Bool
  | .int a, .int b => a < b
  | .str a, .str b => a < b
  | _, _ => false

/-- Column value less than or equal to the operand. -/
def valLte : Value → Value → Bool
  | .int a, .int b => a ≤ b
  | .str a, .str b => a ≤ b || a == b
  | _, _ => false

/-- Equality predicate on the field of a row (`.eq(k, v)`). -/
def rowEq (r : Row) (k : String) (v : Value) : Bool :=
  match getField r k with
  | some w => w == v
  | none => false

/-- Greater-than predicate on the field of a row (`.gt(k, v)`). -/
def rowGt (r : Row) (k : String) (v : Value) : Bool :=
  match getField r k with
  | some w => valGt w v
  | none => false

/-- Greater-or-equal predicate (`.gte(k, v)`). -/
def rowGte (r : Row) (k : String) (v : Value) : Bool :=
  match getField r k with
  | some w => valGte w v
  | none => false

/-- Less-than predicate (`.lt(k, v)`). -/
def rowLt (r : Row) (k : String) (v : Value) : Bool :=
  match getField r k with
  | some w => valLt w v
  | none => false

/-- Less-or-equal predicate (`.lte(k, v)`). -/
def rowLte (r : Row) (k : String) (v : Value) : Bool :=
  match getField r k with
  | some w => valLte w v
  | none => false

/-- Case-sensitive pattern predicate (`.like(k, pat)`); non-string column
values or operands never match. -/
def rowLike (r : Row) (k : String) (v : Value) : Bool :=
  match getField r k, v with
  | some (.str s), .str p => likeMatch p.data s.data
  | _, _ => false

/-- Case-insensitive pattern predicate (`.ilike(k, pat)`). -/
def rowIlike (r : Row) (k : String) (v : Value) : Bool :=
  match getField r k, v with
  | some (.str s), .str p => likeMatch p.toLower.data s.toLower.data
  | _, _ => false

/-- A supabase query handle after `select("*")` and a chain of predicate
calls: the conjunction of the accumulated row predicates. -/
structure Query where
  pred : Row → Bool

/-- `client.table(t).select("*")`: no predicate applied yet. -/
def Query.selectAll : Query := ⟨fun _ => true⟩

/-- `.eq(k, v)` call on a query handle. -/
def Query.eq (q : Query) (k : String) (v : Value) : Query :=
  ⟨fun r => q.pred r && rowEq r k v⟩

/-- `.gt(k, v)` call on a query handle. -/
def Query.gt (q : Query) (k : String) (v : Value) : Query :=
  ⟨fun r => q.pred r && rowGt r k v⟩

/-- `.gte(k, v)` call on a query handle. -/
def Query.gte (q : Query) (k : String) (v : Value) : Query :=
  ⟨fun r => q.pred r && rowGte r k v⟩

/-- `.lt(k, v)` call on a query handle. -/
def Query.lt (q : Query) (k : String) (v : Value) : Query :=
  ⟨fun r => q.pred r && rowLt r k v⟩

/-- `.lte(k, v)` call on a query handle. -/
def Query.lte (q : Query) (k : String) (v : Value) : Query :=
  ⟨fun r => q.pred r && rowLte r k v⟩

/-- `.like(k, v)` call on a query handle. -/
def Query.like (q : Query) (k : String) (v : Value) : Query :=
  ⟨fun r => q.pred r && rowLike r k v⟩

/-- `.ilike(k, v)` call on a query handle. -/
def Query.ilike (q : Query) (k : String) (v : Value) : Query :=
  ⟨fun r => q.pred r && rowIlike r k v⟩

/-- A value in a filter dict: either a plain scalar, or an operator
mapping.  A Python dict used as an operator mapping is non-empty and has
unique, insertion-ordered keys, so it is represented as its first entry
`(op, val)` plus the remaining entries `rest`. -/
inductive FilterVal where
  | scalar (v : Value)
  | opMap (op : String) (val : Value) (rest : List (String × Value))
deriving DecidableEq, Repr

/-- Whether a filter value is a plain scalar (not an operator mapping). -/
def FilterVal.isScalar : FilterVal → Bool
  | .scalar _ => true
  | .opMap _ _ _ => false

/-- Equality comparison of a stored scalar against a raw filter value, as
performed by `count`'s unconditional `.eq(key, value)`: a scalar compares
by value equality; an operator mapping, serialized as an operand, never
equals any stored scalar. -/
def valEqFilter (w : Value) : FilterVal → Bool
  | .scalar v => w == v
  | .opMap _ _ _ => false

/-- `.eq(k, value)` where `value` is a raw filter value (possibly a dict),
as issued by `count`. -/
def rowEqFilter (r : Row) (k : String) (fv : FilterVal) : Bool :=
  match getField r k with
  | some w => valEqFilter w fv
  | none => false

/-- `.eq` on a query handle with a raw filter value operand. -/
def Query.eqFilter (q : Query) (k : String) (fv : FilterVal) : Query :=
  ⟨fun r => q.pred r && rowEqFilter r k fv⟩

/-- The operator dispatch of `SupabaseGenericRepository.get_all`
(src/chati2.py lines 78-92): `operator = list(value.keys())[0]`,
`val = value[operator]`, then the if/elif chain; an unrecognized operator
falls through every branch and leaves the query unchanged. -/
def applyOperator (q : Query) (key : String) (operator : String)
    (val : Value) : Query :=
  if operator = "$gt" then q.gt key val
  else if operator = "$gte" then q.gte key val
  else if operator = "$lt" then q.lt key val
  else if operator = "$lte" then q.lte key val
  else if operator = "$like" then q.like key val
  else if operator = "$ilike" then q.ilike key val
  else q

/-- One iteration of the filter loop of `get_all` (src/chati2.py lines
75-94): a dict value dispatches on its first key, any other value is an
equality filter. -/
def applyFilterStep (q : Query) (kv : String × FilterVal) : Query :=
  match kv with
  | (key, .scalar v) => q.eq key v
  | (key, .opMap op val _) => applyOperator q key op val

/-- The whole filter loop of `get_all` over the filter dict. -/
def applyFilters (q : Query) (filters : List (String × FilterVal)) : Query :=
  filters.foldl applyFilterStep q

/-- `query.range(lo, hi).execute()` on an already-ordered row list:
supabase's `range` is inclusive on both ends, so rows `lo..hi` are
returned, i.e. drop `lo` then take `hi + 1 - lo`. -/
def sliceRange (rows : List α) (lo hi : Nat) : List α :=
  (rows.drop lo).take (hi + 1 - lo)

namespace SupabaseGenericRepository

/-- `insert` (src/chati2.py lines 60-62): returns
`result.data[0] if result.data else None`; `respData` is the `result.data`
list returned by the store for the insert. -/
def insert (respData : List Row) : Option Row :=
  respData.head?

/-- `get_all` (src/chati2.py lines 64-98): build the query with the filter
loop, then `query.range(skip, skip + limit - 1).execute()`.  An absent or
empty filter dict is the empty list (the loop body never runs). -/
def get_all (table : List Row) (skip limit : Nat)
    (filters : List (String × FilterVal)) : List Row :=
  sliceRange (table.filter (applyFilters Query.selectAll filters).pred)
    skip (skip + limit - 1)

/-- `update` (src/chati2.py lines 100-103):
`update(data).eq("id", id).execute()` updates every row whose `id` equals
`id` and returns the updated rows; the method returns
`result.data[0] if result.data else None` together with the new table
state. -/
def update (table : List Row) (id : String) (data : Row) :
    Option Row × List Row :=
  let resp := (table.filter (fun r => rowEq r "id" (.str id))).map
    (fun r => applyUpdates r data)
  let newTable := table.map
    (fun r => if rowEq r "id" (.str id) then applyUpdates r data else r)
  (resp.head?, newTable)

/-- `delete` (src/chati2.py lines 105-108): deletes rows with matching
`id`, returns `len(result.data) > 0` and the new table state. -/
def delete (table : List Row) (id : String) : Bool × List Row :=
  let removed := table.filter (fun r => rowEq r "id" (.str id))
  (decide (0 < removed.length),
   table.filter (fun r => !(rowEq r "id" (.str id))))

/-- `count` (src/chati2.py lines 110-119): selects with `count="exact"`
and applies `.eq(key, value)` for every filter entry, whatever the shape
of `value` (no operator dispatch), then returns the exact count. -/
def count (table : List Row) (filters : List (String × FilterVal)) : Nat :=
  (table.filter
    (filters.foldl (fun q kv => q.eqFilter kv.1 kv.2) Query.selectAll).pred
  ).length

end SupabaseGenericRepository

/-- Row ordering key comparison used by `generic_crud.get`'s
`query.order(order_by, desc=...)`: a total boolean comparison on optional
column values (absent values and nulls sort first; the exact order across
mixed types is irrelevant to the verified properties). -/
def valLe : Value → Value → Bool
  | .null, _ => true
  | _, .null => false
  | .int a, .int b => a ≤ b
  | .int _, .str _ => true
  | .str _, .int _ => false
  | .str a, .str b => a ≤ b || a == b

/-- Comparison of two rows on the ordering column `k`, flipped when the
order is descending. -/
def rowLeBy (k : String) (desc : Bool) (r1 r2 : Row) : Bool :=
  let a := getField r1 k
  let b := getField r2 k
  let le :=
    match a, b with
    | none, _ => true
    | some _, none => false
    | some x, some y => valLe x y
  if desc then !le else le

/-- Insert a row into an already sorted list under the boolean order. -/
def insertSorted (le : Row → Row → Bool) (r : Row) : List Row → List Row
  | [] => [r]
  | x :: xs => if le r x then r :: x :: xs else x :: insertSorted le r xs

/-- Stable insertion sort of the row list under the boolean order
(modelling the store's ORDER BY). -/
def sortRows (le : Row → Row → Bool) : List Row → List Row
  | [] => []
  | x :: xs => insertSorted le x (sortRows le xs)

namespace GenericCrud

/-- The payload sent by `insert`
(src/src/shell/adaptadores/database/generic_crud.py lines 7-12): if
`"fecha_creado"` is not already a key of `data`, it is set to the current
UTC timestamp `now`. -/
def insertPayload (data : Row) (now : String) : Row :=
  if (getField data "fecha_creado").isSome then data
  else setField data "fecha_creado" (.str now)

/-- The result handling of `insert` (generic_crud.py lines 12-17):
raises `Exception(f"Error al insertar en {table}")` when `response.data`
is empty, otherwise returns `response.data[0]`.  `respData` is the
`response.data` list returned by the store. -/
def insert (table : String) (respData : List Row) : Except String Row :=
  match respData with
  | [] => .error ("Error al insertar en " ++ table)
  | r :: _ => .ok r

/-- `get` (generic_crud.py lines 20-43): equality filters only, then
`order(order_by, desc=order_desc)`, then
`range(offset, offset + limit - 1)`. -/
def get (table : List Row) (filters : List (String × Value))
    (limit offset : Nat) (order_by : String) (order_desc : Bool) :
    List Row :=
  let q := filters.foldl (fun q kv => q.eq kv.1 kv.2) Query.selectAll
  sliceRange (sortRows (rowLeBy order_by order_desc) (table.filter q.pred))
    offset (offset + limit - 1)

/-- `update` (generic_crud.py lines 46-57): sets
`updates["fecha_edit"]` to the current timestamp `now`, updates every row
whose `id` equals `id`, and raises
`Exception(f"No se encontró registro con id {id} en {table}")` when no
row matched; otherwise returns `response.data[0]`.  Returns the result
together with the new table state. -/
def update (table : List Row) (tableName : String) (id : String)
    (updates : Row) (now : String) : Except String Row × List Row :=
  let updates2 := setField updates "fecha_edit" (.str now)
  let resp := (table.filter (fun r => rowEq r "id" (.str id))).map
    (fun r => applyUpdates r updates2)
  let newTable := table.map
    (fun r => if rowEq r "id" (.str id) then applyUpdates r updates2 else r)
  match resp with
  | [] => (.error ("No se encontró registro con id " ++ id ++ " en "
      ++ tableName), newTable)
  | r :: _ => (.ok r, newTable)

/-- `soft_delete` (generic_crud.py lines 59-63): delegates to `update`
with `{"fecha_edit": now1, "estado": "inactivo"}` (where `now1` is
`soft_delete`'s own timestamp; `update` then overwrites `fecha_edit` with
its own timestamp `now2`). -/
def soft_delete (table : List Row) (tableName : String) (id : String)
    (now1 now2 : String) : Except String Row × List Row :=
  update table tableName id
    [("fecha_edit", .str now1), ("estado", .str "inactivo")] now2

end GenericCrud

/-- The domain entity `Persona` (src/chati.py lines 8-18).  `datetime`
timestamps are modelled by their ISO-8601 strings. -/
structure Persona where
  id : Option String
  nombre : String
  apellido : String
  email : String
  edad : Int
  telefono : Option String
  created_at : Option String := none
  updated_at : Option String := none
deriving DecidableEq, Repr

/-- A row of the `personas` table: fixed schema with store-assigned `id`
and timestamps. -/
structure PRow where
  id : String
  nombre : String
  apellido : String
  email : String
  edad : Int
  telefono : Option String
  created_at : Option String := none
  updated_at : Option String := none
deriving DecidableEq, Repr

namespace SupabasePersonaRepository

/-- `_to_entity` (src/chati.py lines 289-300): converts a row of the
`personas` table to the domain entity. -/
def toEntity (row : PRow) : Persona :=
  { id := some row.id
    nombre := row.nombre
    apellido := row.apellido
    email := row.email
    edad := row.edad
    telefono := row.telefono
    created_at := row.created_at
    updated_at := row.updated_at }

/-- `create` (src/chati.py lines 237-247): inserts the five entity fields;
the store assigns `newId` and `createdAt`.  Returns the entity built from
the inserted row, and the new table state. -/
def create (store : List PRow) (persona : Persona) (newId : String)
    (createdAt : String) : Persona × List PRow :=
  let row : PRow :=
    { id := newId
      nombre := persona.nombre
      apellido := persona.apellido
      email := persona.email
      edad := persona.edad
      telefono := persona.telefono
      created_at := some createdAt
      updated_at := none }
  (toEntity row, store ++ [row])

/-- `get_by_id` (src/chati.py lines 249-255): `select("*").eq("id", id)`,
returns `None` when no row matched, otherwise the first row as an
entity. -/
def get_by_id (store : List PRow) (pid : String) : Option Persona :=
  ((store.filter (fun r => r.id == pid)).head?).map toEntity

/-- `get_all` (src/chati.py lines 257-259):
`select("*").range(skip, skip + limit - 1)`. -/
def get_all (store : List PRow) (skip limit : Nat) : List Persona :=
  (sliceRange store skip (skip + limit - 1)).map toEntity

/-- The per-row effect of the persona `update` payload: the five entity
fields overwrite the row's columns, store-managed columns stay. -/
def updRow (persona : Persona) (r : PRow) : PRow :=
  { r with
    nombre := persona.nombre
    apellido := persona.apellido
    email := persona.email
    edad := persona.edad
    telefono := persona.telefono }

/-- `update` (src/chati.py lines 261-275): row-scoped `eq("id", id)`
update of the five entity fields; returns `None` when `result.data` is
empty, otherwise the first updated row as an entity.  Returns the result
together with the new table state. -/
def update (store : List PRow) (pid : String) (persona : Persona) :
    Option Persona × List PRow :=
  let resp := (store.filter (fun r => r.id == pid)).map (updRow persona)
  let newStore := store.map
    (fun r => if r.id == pid then updRow persona r else r)
  (resp.head?.map toEntity, newStore)

/-- `delete` (src/chati.py lines 277-279): deletes rows with matching id,
returns `len(result.data) > 0` and the new table state. -/
def delete (store : List PRow) (pid : String) : Bool × List PRow :=
  (decide (0 < (store.filter (fun r => r.id == pid)).length),
   store.filter (fun r => !(r.id == pid)))

/-- `get_by_email` (src/chati.py lines 281-287): `eq("email", email)`,
`None` when no row matched, otherwise the first row as an entity. -/
def get_by_email (store : List PRow) (email : String) : Option Persona :=
  ((store.filter (fun r => r.email == email)).head?).map toEntity

end SupabasePersonaRepository

/-- `PersonaCreateDTO` (src/chati.py lines 71-77). -/
structure PersonaCreateDTO where
  nombre : String
  apellido : String
  email : String
  edad : Int
  telefono : Option String
deriving DecidableEq, Repr

/-- `PersonaUpdateDTO` (src/chati.py lines 79-85) under
`model_dump(exclude_unset=True)`: `none` means the field was absent from
the caller's payload; `some` means it was present.  `telefono`, the only
field whose entity type is itself optional, can be present with an
explicit null (`some none`). -/
structure PersonaUpdateDTO where
  nombre : Option String := none
  apellido : Option String := none
  email : Option String := none
  edad : Option Int := none
  telefono : Option (Option String) := none
deriving DecidableEq, Repr

/-- The domain-level error kinds raised by the use-case layer (the
`ValueError`s of src/chati.py and src/chati2.py, plus the failure of
delegating to an abstract repository method that has no concrete
implementation). -/
inductive UCErr where
  | duplicateEmail (email : String)
  | notFound (id : String)
  | missingMethod (name : String)
deriving DecidableEq, Repr

namespace CreatePersonaUseCase

/-- `CreatePersonaUseCase.execute` (src/chati.py lines 115-135): probe
`get_by_email` first; on a match raise the duplicate-email `ValueError`
with the store untouched; otherwise build the entity with `id=None` and
delegate to the repository's `create`. -/
def execute (store : List PRow) (data : PersonaCreateDTO) (newId : String)
    (createdAt : String) : Except UCErr Persona × List PRow :=
  match SupabasePersonaRepository.get_by_email store data.email with
  | some _ => (.error (.duplicateEmail data.email), store)
  | none =>
      let persona : Persona :=
        { id := none
          nombre := data.nombre
          apellido := data.apellido
          email := data.email
          edad := data.edad
          telefono := data.telefono }
      let cr := SupabasePersonaRepository.create store persona newId createdAt
      (.ok cr.1, cr.2)

end CreatePersonaUseCase

/-- The merged entity built by `UpdatePersonaUseCase.execute`
(src/chati.py lines 187-197): `updated_data.get(field, existing.field)`
for each of the five fields, identifier fixed to `persona_id`, timestamps
left at the dataclass default `None`. -/
def mergedPersona (pid : String) (data : PersonaUpdateDTO)
    (existing : Persona) : Persona :=
  { id := some pid
    nombre := data.nombre.getD existing.nombre
    apellido := data.apellido.getD existing.apellido
    email := data.email.getD existing.email
    edad := data.edad.getD existing.edad
    telefono := data.telefono.getD existing.telefono }

namespace UpdatePersonaUseCase

/-- `UpdatePersonaUseCase.execute` (src/chati.py lines 180-200): probe
`get_by_id`; raise not-found when absent (store untouched); otherwise
send the merged entity to the repository's `update` and return its
result. -/
def execute (store : List PRow) (pid : String) (data : PersonaUpdateDTO) :
    Except UCErr (Option Persona) × List PRow :=
  match SupabasePersonaRepository.get_by_id store pid with
  | none => (.error (.notFound pid), store)
  | some existing =>
      let ur := SupabasePersonaRepository.update store pid
        (mergedPersona pid data existing)
      (.ok ur.1, ur.2)

end UpdatePersonaUseCase

namespace DeletePersonaUseCase

/-- `DeletePersonaUseCase.execute` (src/chati.py lines 212-218): probe
`get_by_id`; raise not-found when absent (store untouched); otherwise
delegate to the repository's `delete` and return its boolean result
unchanged. -/
def execute (store : List PRow) (pid : String) :
    Except UCErr Bool × List PRow :=
  match SupabasePersonaRepository.get_by_id store pid with
  | none => (.error (.notFound pid), store)
  | some _ =>
      let dr := SupabasePersonaRepository.delete store pid
      (.ok dr.1, dr.2)

end DeletePersonaUseCase

/-- The set of concrete operations a repository object offers against the
`BaseRepositoryInterface` contract (src/chati2.py lines 9-39): `none`
means the abstract method has no concrete implementation in the class, so
any delegation to it fails. -/
structure PartialRepo where
  create : Option (Row → List Row → Row × List Row) := none
  get_by_id : Option (String → List Row → Option Row) := none
  get_all : Option (List Row → Nat → Nat → List (String × FilterVal) →
    List Row) := none
  update : Option (String → Row → List Row → Option Row × List Row) := none
  delete : Option (String → List Row → Bool × List Row) := none
  count : Option (List Row → List (String × FilterVal) → Nat) := none
  insert : Option (List Row → Option Row) := none

/-- The operations `SupabaseGenericRepository` (src/chati2.py lines
53-119) actually defines: `insert`, `get_all`, `update`, `delete` and
`count`; the interface's abstract `create` and `get_by_id` are never
overridden. -/
def supabaseGenericRepoOps : PartialRepo where
  create := none
  get_by_id := none
  get_all := some (fun table skip limit fs =>
    SupabaseGenericRepository.get_all table skip limit fs)
  update := some (fun id data table =>
    SupabaseGenericRepository.update table id data)
  delete := some (fun id table => SupabaseGenericRepository.delete table id)
  count := some (fun table fs => SupabaseGenericRepository.count table fs)
  insert := some SupabaseGenericRepository.insert

namespace GenericCRUDUseCase

/-- `GenericCRUDUseCase.create` (src/chati2.py lines 137-139): pure
delegation to `repository.create`; fails when the repository has no such
concrete operation. -/
def create (repo : PartialRepo) (data : Row) (store : List Row) :
    Except UCErr Row × List Row :=
  match repo.create with
  | none => (.error (.missingMethod "create"), store)
  | some f =>
      let r := f data store
      (.ok r.1, r.2)

/-- `GenericCRUDUseCase.get_by_id` (src/chati2.py lines 141-146):
delegation plus the not-found `ValueError` on absence. -/
def get_by_id (repo : PartialRepo) (id : String) (store : List Row) :
    Except UCErr Row × List Row :=
  match repo.get_by_id with
  | none => (.error (.missingMethod "get_by_id"), store)
  | some g =>
      match g id store with
      | none => (.error (.notFound id), store)
      | some r => (.ok r, store)

/-- `GenericCRUDUseCase.update` (src/chati2.py lines 157-165): existence
probe via `repository.get_by_id`, the not-found `ValueError` on absence
(before any mutation), then delegation to `repository.update`. -/
def update (repo : PartialRepo) (id : String) (data : Row)
    (store : List Row) : Except UCErr (Option Row) × List Row :=
  match repo.get_by_id with
  | none => (.error (.missingMethod "get_by_id"), store)
  | some g =>
      match g id store with
      | none => (.error (.notFound id), store)
      | some _ =>
          match repo.update with
          | none => (.error (.missingMethod "update"), store)
          | some u =>
              let r := u id data store
              (.ok r.1, r.2)

/-- `GenericCRUDUseCase.delete` (src/chati2.py lines 167-174): existence
probe via `repository.get_by_id`, the not-found `ValueError` on absence
(before any mutation), then delegation to `repository.delete`. -/
def delete (repo : PartialRepo) (id : String) (store : List Row) :
    Except UCErr Bool × List Row :=
  match repo.get_by_id with
  | none => (.error (.missingMethod "get_by_id"), store)
  | some g =>
      match g id store with
      | none => (.error (.notFound id), store)
      | some _ =>
          match repo.delete with
          | none => (.error (.missingMethod "delete"), store)
          | some d =>
              let r := d id store
              (.ok r.1, r.2)

end GenericCRUDUseCase

/-- Reference predicate following the specification's words for the
operator dispatch (spec.md section 4.1): dispatch on the operator key to
the corresponding comparison or pattern predicate; an unknown operator
key constrains nothing. -/
def specOperatorPred (op : String) (k : String) (val : Value) (r : Row) :
    Bool :=
  if op = "$gt" then rowGt r k val
  else if op = "$gte" then rowGte r k val
  else if op = "$lt" then rowLt r k val
  else if op = "$lte" then rowLte r k val
  else if op = "$like" then rowLike r k val
  else if op = "$ilike" then rowIlike r k val
  else true

/-- Reference predicate following the specification's words for a whole
filter mapping (spec.md sections 3 and 4.1): every pair must hold; a
scalar pair is an equality predicate, an operator-mapping pair dispatches
on its first operator key. -/
def specFilterPred (filters : List (String × FilterVal)) (r : Row) : Bool :=
  filters.all fun kv =>
    match kv with
    | (k, .scalar v) => rowEq r k v
    | (k, .opMap op val _) => specOperatorPred op k val r

/-- Modelled from the spec: `getById` for the generic repository — the
source leaves `get_by_id` abstract on the generic path (see
`supabaseGenericRepoOps`), and the spec (section 4.2) describes it as a
single-row lookup by equality on the identifier, returning absence
rather than raising. -/
def rowStoreGetById (id : String) (store : List Row) : Option Row :=
  (store.filter (fun r => rowEq r "id" (.str id))).head?

/-- A repository instance satisfying the full base interface: the
concrete generic operations plus the spec-modelled `get_by_id`; used to
exercise the orchestrator's existence-gated paths. -/
def rowStoreRepo : PartialRepo :=
  { supabaseGenericRepoOps with get_by_id := some rowStoreGetById }

/-- Concrete one-row fixture of the `personas` table used to evaluate the
verified properties on explicit inputs. -/
def juanRow : PRow :=
  { id := "1", nombre := "Juan", apellido := "P", email := "j",
    edad := 30, telefono := none }

/-- The entity corresponding to `juanRow`. -/
def juanPersona : Persona :=
  { id := some "1", nombre := "Juan", apellido := "P", email := "j",
    edad := 30, telefono := none }

/-- A concrete partial-update payload: only `edad` is present. -/
def edadDTO : PersonaUpdateDTO := { edad := some 31 }

/-- The domain entity built by `CreatePersonaUseCase.execute` from its
DTO (src/chati.py lines 122-129): all five fields copied, `id=None`. -/
def dtoEntity (data : PersonaCreateDTO) : Persona :=
  { id := none
    nombre := data.nombre
    apellido := data.apellido
    email := data.email
    edad := data.edad
    telefono := data.telefono }

/-- A concrete create payload for the uniqueness-gate property. -/
def juanCreateDTO : PersonaCreateDTO :=
  { nombre := "Juan", apellido := "P", email := "j", edad := 30,
    telefono := none }

theorem applyOperator_pred (q : Query) (k op : String) (val : Value)
    (r : Row) : (applyOperator q k op val).pred r
      = (q.pred r && specOperatorPred op k val r) := by
  unfold applyOperator specOperatorPred
  split_ifs <;>
    simp [Query.gt, Query.gte, Query.lt, Query.lte, Query.like, Query.ilike]

theorem applyFilters_pred (fs : List (String × FilterVal)) (q : Query)
    (r : Row) : (applyFilters q fs).pred r = (q.pred r && specFilterPred fs r) := by
  induction fs generalizing q with
  | nil => simp [applyFilters, specFilterPred]
  | cons kv fs ih =>
    obtain ⟨k, fv⟩ := kv
    cases fv with
    | scalar v =>
      have h1 : applyFilters q ((k, FilterVal.scalar v) :: fs)
          = applyFilters (q.eq k v) fs := rfl
      rw [h1, ih]
      simp [Query.eq, specFilterPred, Bool.and_assoc]
    | opMap op val rest =>
      have h1 : applyFilters q ((k, FilterVal.opMap op val rest) :: fs)
          = applyFilters (applyOperator q k op val) fs := rfl
      rw [h1, ih, applyOperator_pred]
      simp [specFilterPred, Bool.and_assoc]

theorem countFold_pred (fs : List (String × FilterVal)) (q : Query)
    (r : Row) :
    ((fs.foldl (fun q kv => q.eqFilter kv.1 kv.2) q).pred r)
      = (q.pred r && fs.all (fun kv => rowEqFilter r kv.1 kv.2)) := by
  induction fs generalizing q with
  | nil => simp
  | cons kv fs ih =>
    rw [List.foldl_cons, ih]
    simp [Query.eqFilter, Bool.and_assoc]

theorem rowEqFilter_scalar (r : Row) (k : String) (v : Value) :
    rowEqFilter r k (FilterVal.scalar v) = rowEq r k v := by
  unfold rowEqFilter rowEq valEqFilter
  cases getField r k <;> rfl

theorem specFilterPred_scalar_eq (fs : List (String × FilterVal)) (r : Row)
    (h : ∀ kv ∈ fs, kv.2.isScalar = true) :
    specFilterPred fs r = fs.all (fun kv => rowEqFilter r kv.1 kv.2) := by
  induction fs with
  | nil => rfl
  | cons kv fs ih =>
    obtain ⟨k, fv⟩ := kv
    cases fv with
    | scalar v =>
      have ht := ih (fun kv hkv => h kv (List.mem_cons_of_mem _ hkv))
      simp only [specFilterPred, List.all_cons] at ht ⊢
      rw [rowEqFilter_scalar, ht]
    | opMap op val rest =>
      have hm := h (k, FilterVal.opMap op val rest) (List.mem_cons_self _ _)
      simp [FilterVal.isScalar] at hm

theorem sliceRange_window (l : List α) (skip limit : Nat) (h : 1 ≤ limit) :
    sliceRange l skip (skip + limit - 1) = (l.drop skip).take limit := by
  have h2 : skip + limit - 1 + 1 - skip = limit := by omega
  rw [sliceRange, h2]

theorem getField_setField_self (r : Row) (k : String) (v : Value) :
    getField (setField r k v) k = some v := by
  induction r with
  | nil => simp [setField, getField]
  | cons kv rest ih =>
    obtain ⟨k1, v1⟩ := kv
    by_cases h : k1 == k
    · simp [setField, h, getField]
    · simp [setField, h, getField, ih]

theorem getField_setField_ne (r : Row) (k k2 : String) (v : Value)
    (h : k2 ≠ k) : getField (setField r k v) k2 = getField r k2 := by
  have hb : (k == k2) = false := by
    simp only [beq_eq_false_iff_ne, ne_eq]
    exact fun hh => h hh.symm
  induction r with
  | nil => simp [setField, getField, hb]
  | cons kv rest ih =>
    obtain ⟨k1, v1⟩ := kv
    by_cases h1 : k1 == k
    · have hk1 : k1 = k := eq_of_beq h1
      simp [setField, h1, getField, hb, hk1]
    · simp [setField, h1, getField, ih]


/-- C1: for every table and filter mapping, `get_all` translates each
(field, value) pair as the spec states: a plain scalar yields an equality
predicate; a single-entry operator mapping dispatches on the operator key
($gt, $gte, $lt, $lte, $like, $ilike) to the corresponding predicate with
the paired operand; an operator mapping whose first key is not one of the
six adds no predicate and raises no error; and a multi-key operator
mapping is treated exactly as if it held only its first entry. -/
theorem filter_translation_matches_spec :
    (∀ fs r, (applyFilters Query.selectAll fs).pred r = specFilterPred fs r)
    ∧ (∀ table skip limit fs,
        SupabaseGenericRepository.get_all table skip limit fs
          = sliceRange (table.filter (fun r => specFilterPred fs r)) skip
              (skip + limit - 1))
    ∧ (∀ q k v r, (applyFilterStep q (k, FilterVal.scalar v)).pred r
          = (q.pred r && rowEq r k v))
    ∧ (∀ q k op val,
        op ∉ (["$gt", "$gte", "$lt", "$lte", "$like", "$ilike"] :
          List String) →
        applyOperator q k op val = q)
    ∧ (∀ q k op val rest,
        applyFilterStep q (k, FilterVal.opMap op val rest)
          = applyFilterStep q (k, FilterVal.opMap op val [])) := by
  refine ⟨fun fs r => ?_, fun table skip limit fs => ?_,
    fun q k v r => rfl, fun q k op val h => ?_, fun q k op val rest => rfl⟩
  · rw [applyFilters_pred]
    simp [Query.selectAll]
  · unfold SupabaseGenericRepository.get_all
    congr 1
    apply List.filter_congr
    intro r _
    rw [applyFilters_pred]
    simp [Query.selectAll]
  · simp only [List.mem_cons, List.not_mem_nil, or_false, not_or] at h
    obtain ⟨h1, h2, h3, h4, h5, h6⟩ := h
    simp [applyOperator, h1, h2, h3, h4, h5, h6]

/-- Witness for C1 at concrete inputs: `$bad` is an unknown operator and
leaves the query unchanged; a `$gt` filter agrees with the spec
predicate on a concrete row. -/
theorem filter_translation_matches_spec_witness :
    ("$bad" ∉ (["$gt", "$gte", "$lt", "$lte", "$like", "$ilike"] :
      List String))
    ∧ applyOperator Query.selectAll "edad" "$bad" (Value.int 1)
        = Query.selectAll
    ∧ (applyFilters Query.selectAll
          [("edad", FilterVal.opMap "$gt" (Value.int 18) [])]).pred
          [("edad", Value.int 20)]
        = specFilterPred [("edad", FilterVal.opMap "$gt" (Value.int 18) [])]
          [("edad", Value.int 20)] :=
  ⟨by decide,
   filter_translation_matches_spec.2.2.2.1 Query.selectAll "edad" "$bad"
     (Value.int 1) (by decide),
   filter_translation_matches_spec.1
     [("edad", FilterVal.opMap "$gt" (Value.int 18) [])]
     [("edad", Value.int 20)]⟩

/-- C2 (amended): `count(filters)` equals the length of the unpaginated
`get_all(filters)` result when every filter value is a plain scalar
(equality filters); for operator-mapping filters `count` applies a bare
equality comparison against the mapping itself instead of dispatching on
the operator, so the two can differ. -/
theorem count_consistency_scalar_filters
    (table : List Row) (fs : List (String × FilterVal)) (limit : Nat)
    (hscalar : ∀ kv ∈ fs, kv.2.isScalar = true)
    (hlimit : table.length ≤ limit) :
    SupabaseGenericRepository.count table fs
      = (SupabaseGenericRepository.get_all table 0 limit fs).length := by
  unfold SupabaseGenericRepository.count SupabaseGenericRepository.get_all
  have hpred : ∀ r ∈ table,
      (fs.foldl (fun q kv => q.eqFilter kv.1 kv.2) Query.selectAll).pred r
        = (applyFilters Query.selectAll fs).pred r := by
    intro r _
    rw [applyFilters_pred, countFold_pred]
    simp only [Query.selectAll, Bool.true_and]
    exact (specFilterPred_scalar_eq fs r hscalar).symm
  rw [List.filter_congr hpred]
  have h0 : (0 : Nat) + limit - 1 + 1 - 0 = limit - 1 + 1 := by omega
  have hlen : (table.filter (applyFilters Query.selectAll fs).pred).length
      ≤ limit - 1 + 1 :=
    le_trans (le_trans (List.length_filter_le _ _) hlimit) (by omega)
  rw [sliceRange, List.drop_zero, h0, List.take_of_length_le hlen]

/-- Witness for C2 (amended) at a concrete scalar filter. -/
theorem count_consistency_scalar_filters_witness :
    (∀ kv ∈ ([("edad", FilterVal.scalar (Value.int 20))] :
        List (String × FilterVal)), kv.2.isScalar = true)
    ∧ ([[("edad", Value.int 20)]] : List Row).length ≤ 5
    ∧ SupabaseGenericRepository.count [[("edad", Value.int 20)]]
          [("edad", FilterVal.scalar (Value.int 20))]
        = (SupabaseGenericRepository.get_all [[("edad", Value.int 20)]] 0 5
            [("edad", FilterVal.scalar (Value.int 20))]).length :=
  ⟨by decide, by decide,
   count_consistency_scalar_filters [[("edad", Value.int 20)]]
     [("edad", FilterVal.scalar (Value.int 20))] 5 (by decide) (by decide)⟩

/-- Counterexample to C2 as stated: on a one-row table with
`edad = 20` and the operator filter `{"edad": {"$gt": 18}}`, `get_all`
dispatches on `$gt` and returns the row, while `count` applies
`.eq("edad", {"$gt": 18})` (equality against the mapping itself), which
matches no stored scalar — so the count is 0 but the unpaginated
`get_all` length is 1. -/
theorem count_op_filter_counterexample :
    SupabaseGenericRepository.count [[("edad", Value.int 20)]]
        [("edad", FilterVal.opMap "$gt" (Value.int 18) [])]
      ≠ (SupabaseGenericRepository.get_all [[("edad", Value.int 20)]] 0 100
          [("edad", FilterVal.opMap "$gt" (Value.int 18) [])]).length := by
  decide

/-- C3: `SupabaseGenericRepository` implements `insert`, `get_all`,
`update`, `delete` and `count` but gives no concrete implementation of
the base interface's abstract `create` and `get_by_id`; consequently the
generic orchestrator's `create`, `get_by_id`, `update` and `delete`,
each of which delegates to `repository.create` or `repository.get_by_id`,
have no concrete operation to delegate to and fail for every input on the
generic path. -/
theorem generic_repo_missing_create_get_by_id :
    supabaseGenericRepoOps.create = none
    ∧ supabaseGenericRepoOps.get_by_id = none
    ∧ supabaseGenericRepoOps.insert.isSome = true
    ∧ supabaseGenericRepoOps.get_all.isSome = true
    ∧ supabaseGenericRepoOps.update.isSome = true
    ∧ supabaseGenericRepoOps.delete.isSome = true
    ∧ supabaseGenericRepoOps.count.isSome = true
    ∧ (∀ data store,
        GenericCRUDUseCase.create supabaseGenericRepoOps data store
          = (.error (.missingMethod "create"), store))
    ∧ (∀ id store,
        GenericCRUDUseCase.get_by_id supabaseGenericRepoOps id store
          = (.error (.missingMethod "get_by_id"), store))
    ∧ (∀ id data store,
        GenericCRUDUseCase.update supabaseGenericRepoOps id data store
          = (.error (.missingMethod "get_by_id"), store))
    ∧ (∀ id store,
        GenericCRUDUseCase.delete supabaseGenericRepoOps id store
          = (.error (.missingMethod "get_by_id"), store)) :=
  ⟨rfl, rfl, rfl, rfl, rfl, rfl, rfl, fun _ _ => rfl, fun _ _ => rfl,
   fun _ _ _ => rfl, fun _ _ => rfl⟩

/-- C4 (amended): every repository-layer update is row-scoped by equality
on the identifier; `SupabaseGenericRepository.update` and
`SupabasePersonaRepository.update` return the updated row when a row
matched and absence (`None`, not a raised error) when no row matched;
the module-level `generic_crud.update`, however, raises an error when no
row matched instead of returning absence. -/
theorem repository_update_absence_semantics :
    (∀ (table : List Row) id data,
        table.filter (fun r => rowEq r "id" (Value.str id)) = [] →
        (SupabaseGenericRepository.update table id data).1 = none)
    ∧ (∀ (table : List Row) id data r0 rest,
        table.filter (fun r => rowEq r "id" (Value.str id)) = r0 :: rest →
        (SupabaseGenericRepository.update table id data).1
          = some (applyUpdates r0 data))
    ∧ (∀ (store : List PRow) pid persona,
        store.filter (fun r => r.id == pid) = [] →
        (SupabasePersonaRepository.update store pid persona).1 = none)
    ∧ (∀ (store : List PRow) pid persona r0 rest,
        store.filter (fun r => r.id == pid) = r0 :: rest →
        (SupabasePersonaRepository.update store pid persona).1
          = some (SupabasePersonaRepository.toEntity
              (SupabasePersonaRepository.updRow persona r0)))
    ∧ (∀ (table : List Row) tname id updates now,
        table.filter (fun r => rowEq r "id" (Value.str id)) = [] →
        (GenericCrud.update table tname id updates now).1
          = .error ("No se encontró registro con id " ++ id ++ " en "
              ++ tname)) := by
  refine ⟨fun table id data h => ?_, fun table id data r0 rest h => ?_,
    fun store pid persona h => ?_, fun store pid persona r0 rest h => ?_,
    fun table tname id updates now h => ?_⟩
  · simp [SupabaseGenericRepository.update, h]
  · simp [SupabaseGenericRepository.update, h]
  · simp [SupabasePersonaRepository.update, h]
  · simp [SupabasePersonaRepository.update, h]
  · simp [GenericCrud.update, h]

/-- Witness for C4 (amended): the empty table has no matching row and the
generic repository update returns `none`; a one-row matching table
returns the updated row. -/
theorem repository_update_absence_semantics_witness :
    (([] : List Row).filter (fun r => rowEq r "id" (Value.str "9")) = [])
    ∧ (SupabaseGenericRepository.update [] "9" []).1 = none
    ∧ ([[("id", Value.str "9")]] : List Row).filter
        (fun r => rowEq r "id" (Value.str "9")) = [[("id", Value.str "9")]]
    ∧ (SupabaseGenericRepository.update [[("id", Value.str "9")]] "9"
        [("edad", Value.int 1)]).1
      = some (applyUpdates [("id", Value.str "9")] [("edad", Value.int 1)]) :=
  ⟨rfl, repository_update_absence_semantics.1 [] "9" [] rfl, by decide,
   repository_update_absence_semantics.2.1 [[("id", Value.str "9")]] "9"
     [("edad", Value.int 1)] [("id", Value.str "9")] [] (by decide)⟩

/-- Counterexample to C4 as stated: the module-level `generic_crud.update`
on an empty table raises (its result is an error), refuting "the
repository update never raises merely because the id did not exist". -/
theorem generic_crud_update_raises_counterexample :
    (GenericCrud.update [] "personas" "1" [] "t").1
      = .error "No se encontró registro con id 1 en personas" := by
  rfl

/-- C5 (amended): the module-level `generic_crud.insert` returns the
inserted row and raises an error when the insert returns no row, as the
claim states; `SupabaseGenericRepository.insert`, however, returns the
inserted row but silently returns absence (`None`), not a raised error,
when the insert returns no row. -/
theorem create_insert_empty_result_semantics :
    (∀ t, GenericCrud.insert t [] = .error ("Error al insertar en " ++ t))
    ∧ (∀ t r rest, GenericCrud.insert t (r :: rest) = .ok r)
    ∧ SupabaseGenericRepository.insert [] = none
    ∧ (∀ r rest, SupabaseGenericRepository.insert (r :: rest) = some r) :=
  ⟨fun _ => rfl, fun _ _ _ => rfl, rfl, fun _ _ => rfl⟩

/-- Counterexample to C5 as stated: when the insert response carries no
row, `SupabaseGenericRepository.insert` evaluates to `none` — a silent
absence, not the raised `StoreError` the claim requires of every
repository-layer create. -/
theorem generic_insert_silent_none_counterexample :
    SupabaseGenericRepository.insert [] = none := rfl

/-- C6: the entity sent to the repository by the Persona update
orchestrator overrides exactly the fields present in the payload,
retains the prior value of every absent field, and fixes the identifier;
merging the same payload twice yields the same entity as merging it
once, and on an existing entity the orchestrator delegates exactly the
merged entity to the repository update. -/
theorem merge_update_override_idempotent :
    (∀ pid data p, (mergedPersona pid data p).id = some pid)
    ∧ (∀ pid data p v, data.nombre = some v →
        (mergedPersona pid data p).nombre = v)
    ∧ (∀ pid data p, data.nombre = none →
        (mergedPersona pid data p).nombre = p.nombre)
    ∧ (∀ pid data p v, data.apellido = some v →
        (mergedPersona pid data p).apellido = v)
    ∧ (∀ pid data p, data.apellido = none →
        (mergedPersona pid data p).apellido = p.apellido)
    ∧ (∀ pid data p v, data.email = some v →
        (mergedPersona pid data p).email = v)
    ∧ (∀ pid data p, data.email = none →
        (mergedPersona pid data p).email = p.email)
    ∧ (∀ pid data p v, data.edad = some v →
        (mergedPersona pid data p).edad = v)
    ∧ (∀ pid data p, data.edad = none →
        (mergedPersona pid data p).edad = p.edad)
    ∧ (∀ pid data p v, data.telefono = some v →
        (mergedPersona pid data p).telefono = v)
    ∧ (∀ pid data p, data.telefono = none →
        (mergedPersona pid data p).telefono = p.telefono)
    ∧ (∀ pid data p, mergedPersona pid data (mergedPersona pid data p)
        = mergedPersona pid data p)
    ∧ (∀ store pid data p,
        SupabasePersonaRepository.get_by_id store pid = some p →
        UpdatePersonaUseCase.execute store pid data
          = (.ok (SupabasePersonaRepository.update store pid
                (mergedPersona pid data p)).1,
             (SupabasePersonaRepository.update store pid
               (mergedPersona pid data p)).2)) := by
  refine ⟨fun pid data p => rfl,
    fun pid data p v h => by simp [mergedPersona, h],
    fun pid data p h => by simp [mergedPersona, h],
    fun pid data p v h => by simp [mergedPersona, h],
    fun pid data p h => by simp [mergedPersona, h],
    fun pid data p v h => by simp [mergedPersona, h],
    fun pid data p h => by simp [mergedPersona, h],
    fun pid data p v h => by simp [mergedPersona, h],
    fun pid data p h => by simp [mergedPersona, h],
    fun pid data p v h => by simp [mergedPersona, h],
    fun pid data p h => by simp [mergedPersona, h],
    fun pid data p => ?_, fun store pid data p h => ?_⟩
  · obtain ⟨n, a, e, ed, t⟩ := data
    cases n <;> cases a <;> cases e <;> cases ed <;> cases t <;> rfl
  · unfold UpdatePersonaUseCase.execute
    rw [h]

/-- Witness for C6 at concrete inputs: a payload setting only `edad`
overrides `edad`, keeps `nombre`, and the orchestrator sends the merged
entity to the repository update on a one-row store. -/
theorem merge_update_override_idempotent_witness :
    edadDTO.edad = some 31
    ∧ (mergedPersona "1" edadDTO juanPersona).edad = 31
    ∧ edadDTO.nombre = none
    ∧ (mergedPersona "1" edadDTO juanPersona).nombre = "Juan"
    ∧ SupabasePersonaRepository.get_by_id [juanRow] "1" = some juanPersona
    ∧ UpdatePersonaUseCase.execute [juanRow] "1" edadDTO
      = (.ok (SupabasePersonaRepository.update [juanRow] "1"
            (mergedPersona "1" edadDTO juanPersona)).1,
         (SupabasePersonaRepository.update [juanRow] "1"
           (mergedPersona "1" edadDTO juanPersona)).2) :=
  ⟨rfl,
   merge_update_override_idempotent.2.2.2.2.2.2.2.1 "1" edadDTO
     juanPersona 31 rfl,
   rfl,
   merge_update_override_idempotent.2.2.1 "1" edadDTO juanPersona rfl,
   by decide,
   merge_update_override_idempotent.2.2.2.2.2.2.2.2.2.2.2.2
     [juanRow] "1" edadDTO juanPersona (by decide)⟩

/-- C7: the Persona create orchestrator first probes uniqueness via
`get_by_email` on the requested email; when a matching entity exists the
call fails with the duplicate-key error and the store is unchanged (no
write occurred); otherwise the create is delegated to the repository. -/
theorem create_uniqueness_gate :
    (∀ (store : List PRow) data newId createdAt,
        store.any (fun r => r.email == data.email) = true →
        CreatePersonaUseCase.execute store data newId createdAt
          = (.error (.duplicateEmail data.email), store))
    ∧ (∀ (store : List PRow) data newId createdAt,
        store.all (fun r => !(r.email == data.email)) = true →
        CreatePersonaUseCase.execute store data newId createdAt
          = (.ok (SupabasePersonaRepository.create store (dtoEntity data)
                newId createdAt).1,
             (SupabasePersonaRepository.create store (dtoEntity data)
               newId createdAt).2)) := by
  constructor
  · intro store data newId createdAt h
    rw [List.any_eq_true] at h
    obtain ⟨x, hx, hpx⟩ := h
    have hne : store.filter (fun r => r.email == data.email) ≠ [] := by
      intro hnil
      have hmem : x ∈ store.filter (fun r => r.email == data.email) :=
        List.mem_filter.mpr ⟨hx, hpx⟩
      rw [hnil] at hmem
      exact List.not_mem_nil _ hmem
    cases hf : store.filter (fun r => r.email == data.email) with
    | nil => exact absurd hf hne
    | cons r0 rest =>
        unfold CreatePersonaUseCase.execute
          SupabasePersonaRepository.get_by_email
        rw [hf]
        rfl
  · intro store data newId createdAt h
    have hf : store.filter (fun r => r.email == data.email) = [] := by
      rw [List.filter_eq_nil_iff]
      intro a ha
      have ha2 := List.all_eq_true.mp h a ha
      simp at ha2
      simp [ha2]
    unfold CreatePersonaUseCase.execute
      SupabasePersonaRepository.get_by_email
    rw [hf]
    rfl

/-- Witness for C7: on the empty store every probe misses and the create
is delegated; on a store already holding the email, the call fails with
the duplicate error and leaves the store unchanged. -/
theorem create_uniqueness_gate_witness :
    (([] : List PRow).all
        (fun r => !(r.email == juanCreateDTO.email)) = true)
    ∧ CreatePersonaUseCase.execute [] juanCreateDTO "1" "now"
      = (.ok (SupabasePersonaRepository.create [] (dtoEntity juanCreateDTO)
            "1" "now").1,
         (SupabasePersonaRepository.create [] (dtoEntity juanCreateDTO)
           "1" "now").2)
    ∧ ([juanRow].any (fun r => r.email == juanCreateDTO.email) = true)
    ∧ CreatePersonaUseCase.execute [juanRow] juanCreateDTO "2" "now"
      = (.error (.duplicateEmail juanCreateDTO.email), [juanRow]) :=
  ⟨rfl, create_uniqueness_gate.2 [] juanCreateDTO "1" "now" rfl, by decide,
   create_uniqueness_gate.1 [juanRow] juanCreateDTO "2" "now" (by decide)⟩

/-- C8: update and delete orchestrators fail with the not-found error and
leave the store untouched when no entity with the identifier exists
(Persona update and delete use cases, and the generic orchestrator's
update and delete over any repository whose `get_by_id` reports absence);
when the entity exists, the delete use case delegates and returns the
repository's boolean result unchanged. -/
theorem existence_gated_mutation :
    (∀ (store : List PRow) pid,
        SupabasePersonaRepository.get_by_id store pid = none →
        DeletePersonaUseCase.execute store pid
          = (.error (.notFound pid), store))
    ∧ (∀ (store : List PRow) pid data,
        SupabasePersonaRepository.get_by_id store pid = none →
        UpdatePersonaUseCase.execute store pid data
          = (.error (.notFound pid), store))
    ∧ (∀ (repo : PartialRepo) g id data (store : List Row),
        repo.get_by_id = some g → g id store = none →
        GenericCRUDUseCase.update repo id data store
          = (.error (.notFound id), store))
    ∧ (∀ (repo : PartialRepo) g id (store : List Row),
        repo.get_by_id = some g → g id store = none →
        GenericCRUDUseCase.delete repo id store
          = (.error (.notFound id), store))
    ∧ (∀ (store : List PRow) pid p,
        SupabasePersonaRepository.get_by_id store pid = some p →
        DeletePersonaUseCase.execute store pid
          = (.ok (SupabasePersonaRepository.delete store pid).1,
             (SupabasePersonaRepository.delete store pid).2)) := by
  refine ⟨fun store pid h => ?_, fun store pid data h => ?_,
    fun repo g id data store hg h => ?_, fun repo g id store hg h => ?_,
    fun store pid p h => ?_⟩
  · unfold DeletePersonaUseCase.execute
    rw [h]
  · unfold UpdatePersonaUseCase.execute
    rw [h]
  · simp [GenericCRUDUseCase.update, hg, h]
  · simp [GenericCRUDUseCase.delete, hg, h]
  · unfold DeletePersonaUseCase.execute
    rw [h]

/-- Witness for C8: absent identifiers fail with not-found on the empty
store for all four orchestrator paths (the generic ones exercised through
the spec-modelled `get_by_id`), and an existing identifier is delegated
to the repository delete. -/
theorem existence_gated_mutation_witness :
    SupabasePersonaRepository.get_by_id [] "9" = none
    ∧ DeletePersonaUseCase.execute [] "9" = (.error (.notFound "9"), [])
    ∧ UpdatePersonaUseCase.execute [] "9" edadDTO
        = (.error (.notFound "9"), [])
    ∧ rowStoreRepo.get_by_id = some rowStoreGetById
    ∧ rowStoreGetById "9" [] = none
    ∧ GenericCRUDUseCase.update rowStoreRepo "9" [] []
        = (.error (.notFound "9"), [])
    ∧ GenericCRUDUseCase.delete rowStoreRepo "9" []
        = (.error (.notFound "9"), [])
    ∧ SupabasePersonaRepository.get_by_id [juanRow] "1" = some juanPersona
    ∧ DeletePersonaUseCase.execute [juanRow] "1"
        = (.ok (SupabasePersonaRepository.delete [juanRow] "1").1,
           (SupabasePersonaRepository.delete [juanRow] "1").2) :=
  ⟨rfl,
   existence_gated_mutation.1 [] "9" rfl,
   existence_gated_mutation.2.1 [] "9" edadDTO rfl,
   rfl, rfl,
   existence_gated_mutation.2.2.1 rowStoreRepo rowStoreGetById "9" [] []
     rfl rfl,
   existence_gated_mutation.2.2.2.1 rowStoreRepo rowStoreGetById "9" []
     rfl rfl,
   by decide,
   existence_gated_mutation.2.2.2.2 [juanRow] "1" juanPersona (by decide)⟩

/-- C9: for every skip and every limit at least 1, each list/getAll
operation passes the inclusive row range [skip, skip+limit-1] to the
store, which amounts to dropping the first `skip` rows of the
(filtered, ordered) result and taking at most `limit` rows. -/
theorem pagination_inclusive_range (skip limit : Nat) (h : 1 ≤ limit) :
    (∀ (table : List Row) fs,
        SupabaseGenericRepository.get_all table skip limit fs
          = ((table.filter
              (applyFilters Query.selectAll fs).pred).drop skip).take limit
        ∧ (SupabaseGenericRepository.get_all table skip limit fs).length
            ≤ limit)
    ∧ (∀ (store : List PRow),
        SupabasePersonaRepository.get_all store skip limit
          = ((store.drop skip).take limit).map
              SupabasePersonaRepository.toEntity
        ∧ (SupabasePersonaRepository.get_all store skip limit).length
            ≤ limit)
    ∧ (∀ (table : List Row) filters ob od,
        GenericCrud.get table filters limit skip ob od
          = ((sortRows (rowLeBy ob od)
              (table.filter (filters.foldl
                (fun q kv => q.eq kv.1 kv.2) Query.selectAll).pred)
             ).drop skip).take limit
        ∧ (GenericCrud.get table filters limit skip ob od).length
            ≤ limit) := by
  refine ⟨fun table fs => ⟨?_, ?_⟩, fun store => ⟨?_, ?_⟩,
    fun table filters ob od => ⟨?_, ?_⟩⟩
  · unfold SupabaseGenericRepository.get_all
    rw [sliceRange_window _ _ _ h]
  · unfold SupabaseGenericRepository.get_all
    rw [sliceRange_window _ _ _ h]
    exact List.length_take_le _ _
  · unfold SupabasePersonaRepository.get_all
    rw [sliceRange_window _ _ _ h]
  · unfold SupabasePersonaRepository.get_all
    rw [sliceRange_window _ _ _ h, List.length_map]
    exact List.length_take_le _ _
  · unfold GenericCrud.get
    rw [sliceRange_window _ _ _ h]
  · unfold GenericCrud.get
    rw [sliceRange_window _ _ _ h]
    exact List.length_take_le _ _

/-- Witness for C9 at skip 1, limit 2 on a concrete two-row table. -/
theorem pagination_inclusive_range_witness :
    1 ≤ 2
    ∧ SupabaseGenericRepository.get_all
        [[("id", Value.str "a")], [("id", Value.str "b")]] 1 2 []
      = ((([[("id", Value.str "a")], [("id", Value.str "b")]] :
            List Row).filter
          (applyFilters Query.selectAll []).pred).drop 1).take 2 :=
  ⟨by decide,
   ((pagination_inclusive_range 1 2 (by decide)).1
     [[("id", Value.str "a")], [("id", Value.str "b")]] []).1⟩

/-- C10: `soft_delete(table, id)` is an update that sets `estado` to the
sentinel string "inactivo" and refreshes `fecha_edit`; when no row with
that id exists it raises an error (via the underlying update), unlike the
hard delete of the Persona repository, which returns `false` in that
case. -/
theorem soft_delete_vs_hard_delete :
    (∀ (table : List Row) tname id n1 n2,
        table.filter (fun r => rowEq r "id" (Value.str id)) = [] →
        (GenericCrud.soft_delete table tname id n1 n2).1
          = .error ("No se encontró registro con id " ++ id ++ " en "
              ++ tname))
    ∧ (∀ (store : List PRow) pid,
        store.filter (fun r => r.id == pid) = [] →
        (SupabasePersonaRepository.delete store pid).1 = false)
    ∧ (∀ (table : List Row) tname id n1 n2 r,
        (GenericCrud.soft_delete table tname id n1 n2).1 = .ok r →
        getField r "estado" = some (Value.str "inactivo")
        ∧ getField r "fecha_edit" = some (Value.str n2)) := by
  refine ⟨fun table tname id n1 n2 h => ?_, fun store pid h => ?_,
    fun table tname id n1 n2 r h => ?_⟩
  · simp [GenericCrud.soft_delete, GenericCrud.update, h]
  · simp [SupabasePersonaRepository.delete, h]
  · unfold GenericCrud.soft_delete GenericCrud.update at h
    cases hf : table.filter (fun r => rowEq r "id" (Value.str id)) with
    | nil => rw [hf] at h; simp at h
    | cons r0 rest =>
        rw [hf] at h
        simp at h
        have hupd : setField
            [("fecha_edit", Value.str n1), ("estado", Value.str "inactivo")]
            "fecha_edit" (Value.str n2)
          = [("fecha_edit", Value.str n2), ("estado", Value.str "inactivo")]
          := rfl
        rw [hupd] at h
        have happ : applyUpdates r0
            [("fecha_edit", Value.str n2), ("estado", Value.str "inactivo")]
          = setField (setField r0 "fecha_edit" (Value.str n2)) "estado"
              (Value.str "inactivo") := rfl
        rw [happ] at h
        rw [← h]
        constructor
        · exact getField_setField_self _ _ _
        · rw [getField_setField_ne _ _ _ _ (by decide)]
          exact getField_setField_self _ _ _

/-- Witness for C10: on a one-row table the soft delete flips `estado`
to "inactivo" and stamps `fecha_edit` with the update's timestamp; on the
empty store the soft delete raises while the hard delete returns
`false`. -/
theorem soft_delete_vs_hard_delete_witness :
    ((GenericCrud.soft_delete [[("id", Value.str "7")]] "t" "7" "a" "b").1
      = .ok [("id", Value.str "7"), ("fecha_edit", Value.str "b"),
          ("estado", Value.str "inactivo")])
    ∧ getField [("id", Value.str "7"), ("fecha_edit", Value.str "b"),
          ("estado", Value.str "inactivo")] "estado"
        = some (Value.str "inactivo")
    ∧ getField [("id", Value.str "7"), ("fecha_edit", Value.str "b"),
          ("estado", Value.str "inactivo")] "fecha_edit"
        = some (Value.str "b")
    ∧ (([] : List PRow).filter (fun r => r.id == "9") = [])
    ∧ (SupabasePersonaRepository.delete [] "9").1 = false :=
  ⟨rfl,
   (soft_delete_vs_hard_delete.2.2 [[("id", Value.str "7")]] "t" "7" "a"
     "b" _ rfl).1,
   (soft_delete_vs_hard_delete.2.2 [[("id", Value.str "7")]] "t" "7" "a"
     "b" _ rfl).2,
   rfl,
   soft_delete_vs_hard_delete.2.1 [] "9" rfl⟩
